import Mathlib

/-
Verification of the workspace CLI commands (src/src/zenml/cli/workspace.py) and
the pipeline-build REST endpoints
(src/src/zenml/zen_server/routers/pipeline_builds_endpoints.py) against the
resource-registry facade contract of the specification.

The two source files are thin wiring around a `Client` / `zen_store` facade
whose implementation is not part of the excerpt.  The facade is therefore
modelled from the specification (spec.md §3, §4.1, §6, §7); the CLI commands
and the endpoint handlers are translated directly from the Python source.
Identifiers are modelled as natural numbers, and the "id format" of a literal
string is the all-digits format recognised by `parseId`.
-/

namespace ZenML

/-- Error taxonomy of spec §7 (the kinds the facade itself can produce). -/
inductive Err where
  | notFound
  | conflict
  | invalidArgument
deriving DecidableEq, Repr

/-- Digit-string accumulator used by `parseId`. -/
def parseIdChars : List Char → Nat → Option Nat
  | [], acc => some acc
  | c :: cs, acc =>
    if c.isDigit then parseIdChars cs (10 * acc + (c.toNat - 48)) else none

/-- Modelled from the spec: the structured-identifier parse of §3/§9 — a
literal "matches the id format" when it is a non-empty digit string; the
parse returns the designated identifier. -/
def parseId (s : String) : Option Nat :=
  match s.data with
  | [] => none
  | c :: cs => parseIdChars (c :: cs) 0

/-- Workspace record of spec §3 (timestamps omitted: no claim mentions them). -/
structure Workspace where
  id : Nat
  name : String
  display_name : Option String
  description : String
deriving DecidableEq, Repr

/-- Request body for build creation (`PipelineBuildRequest`): an optional
owning workspace id plus an opaque payload. -/
structure PipelineBuildRequest where
  workspace : Option Nat
  checksum : String
deriving DecidableEq, Repr

/-- Stored/returned build (`PipelineBuildResponse`). -/
structure PipelineBuildResponse where
  id : Nat
  workspace : Option Nat
  checksum : String
deriving DecidableEq, Repr

/-- Page of results, spec §3: items plus total-count metadata. -/
structure Page (α : Type) where
  items : List α
  total : Nat
deriving DecidableEq, Repr

/-- Build filter (`PipelineBuildFilter`): the part relevant to the claims is
the workspace scope set by `set_scope_workspace`. -/
structure PipelineBuildFilter where
  scope_workspace : Option Nat
deriving DecidableEq, Repr

/-- Method `PipelineBuildFilter.set_scope_workspace`, as called by `list_builds`. -/
def PipelineBuildFilter.set_scope_workspace (f : PipelineBuildFilter)
    (i : Nat) : PipelineBuildFilter :=
  { f with scope_workspace := some i }

/-- The predicate a build must satisfy to pass the filter. -/
def PipelineBuildFilter.matches (f : PipelineBuildFilter)
    (b : PipelineBuildResponse) : Bool :=
  match f.scope_workspace with
  | none => true
  | some i => b.workspace == some i

/-- Full registry-plus-process state: the server-side registries of
workspaces and builds, the fresh-id counters, and the process-local
active-workspace pointer of spec §3. -/
structure State where
  workspaces : List Workspace
  builds : List PipelineBuildResponse
  nextId : Nat
  nextBuildId : Nat
  active : Nat
deriving DecidableEq, Repr

/-- Modelled from the spec: §4.1 `create` rejects a name that is "empty or
malformed"; a name matching the id format of §3 could never be resolved by
name under the disambiguation rule, so it counts as malformed. -/
def validName (s : String) : Bool :=
  (s != "") && (parseId s).isNone

namespace Client

/-- Registry lookup by identifier. -/
def findById (st : State) (i : Nat) : Option Workspace :=
  st.workspaces.find? (fun w => w.id == i)

/-- Registry lookup by unique name. -/
def findByName (st : State) (n : String) : Option Workspace :=
  st.workspaces.find? (fun w => w.name == n)

/-- Modelled from the spec: `get(name_or_id)` of §4.1 — resolve as id if the
literal parses as an identifier, else by unique name in scope; `NotFound`
when no match.  The `Client.get_workspace` implementation is not in the
excerpt. -/
def get_workspace (st : State) (name_or_id : String) : Except Err Workspace :=
  match parseId name_or_id with
  | some i =>
    match findById st i with
    | some w => Except.ok w
    | none => Except.error Err.notFound
  | none =>
    match findByName st name_or_id with
    | some w => Except.ok w
    | none => Except.error Err.notFound

/-- Modelled from the spec: `create(spec)` of §4.1 — `InvalidArgument` on an
empty/malformed name, `Conflict` on a duplicate name in scope, otherwise the
workspace is added with a fresh id.  `Client.create_workspace` is not in the
excerpt. -/
def create_workspace (st : State) (name : String) (description : String)
    (display_name : Option String) : Except Err Workspace × State :=
  if validName name = false then (Except.error Err.invalidArgument, st)
  else if (findByName st name).isSome then (Except.error Err.conflict, st)
  else
    let w : Workspace :=
      { id := st.nextId, name := name, display_name := display_name,
        description := description }
    (Except.ok w,
      { st with workspaces := st.workspaces ++ [w], nextId := st.nextId + 1 })

/-- Modelled from the spec: `set_active(name_or_id)` of §4.1 — resolves per
`get` and persists the resolution in the process-local pointer. -/
def set_active_workspace (st : State) (name_or_id : String) :
    Except Err Workspace × State :=
  match get_workspace st name_or_id with
  | Except.ok w => (Except.ok w, { st with active := w.id })
  | Except.error e => (Except.error e, st)

/-- Modelled from the spec: `delete(name_or_id)` of §4.1 — resolves per
`get`, then physically removes the resource. -/
def delete_workspace (st : State) (name_or_id : String) :
    Except Err Unit × State :=
  match get_workspace st name_or_id with
  | Except.ok w =>
    (Except.ok (),
      { st with workspaces := st.workspaces.filter (fun x => x.id != w.id) })
  | Except.error e => (Except.error e, st)

/-- Modelled from the spec: `list(filter)` of §4.1 — applies the predicate,
never fails on an empty result. -/
def list_workspaces (st : State) (pred : Workspace → Bool) : Page Workspace :=
  let l := st.workspaces.filter pred
  { items := l, total := l.length }

/-- Reading `Client.active_workspace`: dereference the process-local pointer. -/
def active_workspace (st : State) : Option Workspace :=
  findById st st.active

end Client

namespace ZenStore

/-- Server-side `zen_store().get_workspace`, the same facade contract (§6) as
`Client.get_workspace`, evaluated against the server registry. -/
def get_workspace (st : State) (name_or_id : String) : Except Err Workspace :=
  Client.get_workspace st name_or_id

/-- Modelled from the spec: `zen_store().create_build` — builds are unnamed,
so creation inserts with a fresh id and no name-conflict check. -/
def create_build (st : State) (build : PipelineBuildRequest) :
    Except Err PipelineBuildResponse × State :=
  let b : PipelineBuildResponse :=
    { id := st.nextBuildId, workspace := build.workspace,
      checksum := build.checksum }
  (Except.ok b,
    { st with builds := st.builds ++ [b], nextBuildId := st.nextBuildId + 1 })

/-- Modelled from the spec: `zen_store().get_build` — lookup by unique id,
`NotFound` when absent. -/
def get_build (st : State) (build_id : Nat) : Except Err PipelineBuildResponse :=
  match st.builds.find? (fun b => b.id == build_id) with
  | some b => Except.ok b
  | none => Except.error Err.notFound

/-- Modelled from the spec: `zen_store().delete_build` — resolve, then
physically remove. -/
def delete_build (st : State) (build_id : Nat) : Except Err Unit × State :=
  match get_build st build_id with
  | Except.ok _ =>
    (Except.ok (),
      { st with builds := st.builds.filter (fun b => b.id != build_id) })
  | Except.error e => (Except.error e, st)

/-- Modelled from the spec: `zen_store().list_builds` — read-only filtering
with page metadata. -/
def list_builds (st : State) (f : PipelineBuildFilter) :
    Page PipelineBuildResponse :=
  let l := st.builds.filter f.matches
  { items := l, total := l.length }

end ZenStore

/-- Python truthiness of an optional string argument: `None` and the empty
string are falsy (`if not workspace_name_or_id:`). -/
def falsy : Option String → Bool
  | none => true
  | some s => s == ""

namespace Cli

/-- CLI `zenml workspace list` (workspace.py, `list_workspaces`): a pure
read returning the filtered page. -/
def list_workspaces (st : State) (pred : Workspace → Bool) :
    Except Err (Page Workspace) × State :=
  (Except.ok (Client.list_workspaces st pred), st)

/-- CLI `zenml workspace register` (workspace.py, `register_workspace`):
create the workspace; on failure the command aborts.  On success, when the
`--set` flag is given, the raw name is passed to
`Client.set_active_workspace`. -/
def register_workspace (st : State) (workspace_name : String)
    ( set_workspace : Bool) (display_name : Option String) :
    Except Err Unit × State :=
  match Client.create_workspace st workspace_name "" display_name with
  | (Except.error e, st') => (Except.error e, st')
  | (Except.ok _, st') =>
    if set_workspace then
      match Client.set_active_workspace st' workspace_name with
      | (Except.ok _, st'') => (Except.ok (), st'')
      | (Except.error e, st'') => (Except.error e, st'')
    else (Except.ok (), st')

/-- CLI `zenml workspace set` (workspace.py, `set_workspace`). -/
def set_workspace (st : State) (workspace_name_or_id : String) :
    Except Err Unit × State :=
  match Client.set_active_workspace st workspace_name_or_id with
  | (Except.ok _, st') => (Except.ok (), st')
  | (Except.error e, st') => (Except.error e, st')

/-- CLI `zenml workspace describe` (workspace.py, `describe_workspace`):
`if not workspace_name_or_id:` shows the active workspace, else resolves the
argument through `Client.get_workspace`. -/
def describe_workspace (st : State) (workspace_name_or_id : Option String) :
    Except Err Workspace × State :=
  if falsy workspace_name_or_id then
    match Client.active_workspace st with
    | some w => (Except.ok w, st)
    | none => (Except.error Err.notFound, st)
  else
    match Client.get_workspace st (workspace_name_or_id.getD "") with
    | Except.ok w => (Except.ok w, st)
    | Except.error e => (Except.error e, st)

/-- CLI `zenml workspace delete` (workspace.py, `delete_workspace`). -/
def delete_workspace (st : State) (workspace_name_or_id : String) :
    Except Err Unit × State :=
  Client.delete_workspace st workspace_name_or_id

end Cli

namespace Endpoints

/-- Endpoint `POST /pipeline_builds` (pipeline_builds_endpoints.py, `create_build`):
when a workspace literal is given (and truthy), resolve it and overwrite the
request's workspace field with the resolved id before storing. -/
def create_build (st : State) (build : PipelineBuildRequest)
    (workspace_name_or_id : Option String) :
    Except Err PipelineBuildResponse × State :=
  if falsy workspace_name_or_id then ZenStore.create_build st build
  else
    match ZenStore.get_workspace st (workspace_name_or_id.getD "") with
    | Except.ok w =>
      ZenStore.create_build st { build with workspace := some w.id }
    | Except.error e => (Except.error e, st)

/-- Endpoint `GET /pipeline_builds` (pipeline_builds_endpoints.py, `list_builds`):
when a workspace literal is given (and truthy), resolve it and scope the
filter to the resolved id. -/
def list_builds (st : State) (build_filter_model : PipelineBuildFilter)
    (workspace_name_or_id : Option String) :
    Except Err (Page PipelineBuildResponse) × State :=
  if falsy workspace_name_or_id then
    (Except.ok (ZenStore.list_builds st build_filter_model), st)
  else
    match ZenStore.get_workspace st (workspace_name_or_id.getD "") with
    | Except.ok w =>
      (Except.ok
        (ZenStore.list_builds st (build_filter_model.set_scope_workspace w.id)),
        st)
    | Except.error e => (Except.error e, st)

/-- Endpoint `GET /pipeline_builds/{build_id}` (pipeline_builds_endpoints.py,
`get_build`): a pure read by unique id. -/
def get_build (st : State) (build_id : Nat) :
    Except Err PipelineBuildResponse × State :=
  (ZenStore.get_build st build_id, st)

/-- Endpoint `DELETE /pipeline_builds/{build_id}` (pipeline_builds_endpoints.py,
`delete_build`): `verify_permissions_and_delete_entity` first gets the
entity, then deletes it. -/
def delete_build (st : State) (build_id : Nat) : Except Err Unit × State :=
  match ZenStore.get_build st build_id with
  | Except.ok _ => ZenStore.delete_build st build_id
  | Except.error e => (Except.error e, st)

end Endpoints

/-- Modelled from the spec: CLI exit code per error kind (spec §6); the CLI
error-to-message helpers are not in the excerpt. -/
def cliExitCode : Err → Nat
  | Err.notFound => 2
  | Err.conflict => 1
  | Err.invalidArgument => 1

/-- Modelled from the spec: HTTP status per error kind (spec §6);
`handle_exceptions` is not in the excerpt. -/
def httpStatusCode : Err → Nat
  | Err.notFound => 404
  | Err.conflict => 409
  | Err.invalidArgument => 422

/-- Exit code of a finished CLI command: 0 on success, else per kind. -/
def exitCodeOf {α : Type} : Except Err α → Nat
  | Except.ok _ => 0
  | Except.error e => cliExitCode e

/-- HTTP status of a finished request: 200 on success, else per kind. -/
def httpStatusOf {α : Type} : Except Err α → Nat
  | Except.ok _ => 200
  | Except.error e => httpStatusCode e

/-- Registry well-formedness: workspace ids are unique, workspace names are
unique, every stored name is valid, and build ids are unique. -/
abbrev WF (st : State) : Prop :=
  (∀ a ∈ st.workspaces, ∀ b ∈ st.workspaces, a.id = b.id → a = b) ∧
  (∀ a ∈ st.workspaces, ∀ b ∈ st.workspaces, a.name = b.name → a = b) ∧
  (∀ w ∈ st.workspaces, validName w.name = true) ∧
  (∀ a ∈ st.builds, ∀ b ∈ st.builds, a.id = b.id → a = b)

/-- A small concrete state used to evaluate the theorems: one workspace
`default` (id 0) which is also the active workspace, and no builds. -/
def st0 : State :=
  { workspaces := [Workspace.mk 0 "default" none ""], builds := [],
    nextId := 1, nextBuildId := 0, active := 0 }

/-! ### Helper lemmas -/

/-- A search over an appended list skips a first block with no match. -/
theorem find?_append_of_none {α : Type} {p : α → Bool} {l₁ l₂ : List α}
    (h : ∀ x ∈ l₁, ¬ p x = true) :
    (l₁ ++ l₂).find? p = l₂.find? p := by
  rw [List.find?_append, List.find?_eq_none.mpr h, Option.none_or]

/-- When at most one element can match, `find?` returns any matching member. -/
theorem find?_eq_some_of_unique {α : Type} {p : α → Bool} {l : List α} {w : α}
    (huniq : ∀ a ∈ l, ∀ b ∈ l, p a = true → p b = true → a = b)
    (hw : w ∈ l) (hp : p w = true) : l.find? p = some w := by
  induction l with
  | nil => cases hw
  | cons x xs ih =>
    by_cases hx : p x = true
    · have hxw : x = w := huniq x (List.mem_cons_self x xs) w hw hx hp
      rw [List.find?_cons_of_pos _ hx, hxw]
    · have hwxs : w ∈ xs := by
        rcases List.mem_cons.mp hw with hwx | hmem
        · exact absurd (hwx ▸ hp) hx
        · exact hmem
      rw [List.find?_cons_of_neg _ hx]
      exact ih
        (fun a ha b hb => huniq a (List.mem_cons_of_mem _ ha) b
          (List.mem_cons_of_mem _ hb)) hwxs

/-- The build-listing endpoint returns the state it was given. -/
theorem list_builds_state (st : State) (f : PipelineBuildFilter)
    (wl : Option String) : (Endpoints.list_builds st f wl).2 = st := by
  unfold Endpoints.list_builds
  by_cases h : falsy wl = true
  · simp [h]
  · simp [h]
    cases ZenStore.get_workspace st (wl.getD "") <;> rfl

/-- The describe command returns the state it was given. -/
theorem describe_workspace_state (st : State) (arg : Option String) :
    (Cli.describe_workspace st arg).2 = st := by
  unfold Cli.describe_workspace
  by_cases h : falsy arg = true
  · simp [h]
    cases Client.active_workspace st <;> rfl
  · simp [h]
    cases Client.get_workspace st (arg.getD "") <;> rfl

/-- Exhaustive case analysis of `create_workspace`. -/
theorem create_workspace_cases (st : State) (name d : String)
    (dn : Option String) :
    (validName name = false ∧
      Client.create_workspace st name d dn =
        (Except.error Err.invalidArgument, st)) ∨
    (validName name = true ∧ (Client.findByName st name).isSome = true ∧
      Client.create_workspace st name d dn = (Except.error Err.conflict, st)) ∨
    (validName name = true ∧ Client.findByName st name = none ∧
      Client.create_workspace st name d dn =
        (Except.ok (Workspace.mk st.nextId name dn d),
         { st with
             workspaces := st.workspaces ++ [Workspace.mk st.nextId name dn d],
             nextId := st.nextId + 1 })) := by
  cases hv : validName name with
  | false =>
    exact Or.inl ⟨rfl, by unfold Client.create_workspace; rw [hv]; rfl⟩
  | true =>
    cases hf : Client.findByName st name with
    | some w =>
      refine Or.inr (Or.inl ⟨rfl, rfl, ?_⟩)
      unfold Client.create_workspace
      rw [hv, hf]
      rfl
    | none =>
      refine Or.inr (Or.inr ⟨rfl, rfl, ?_⟩)
      unfold Client.create_workspace
      rw [hv, hf]
      rfl

/-- A valid name never parses as an identifier. -/
theorem validName_parseId {name : String} (hv : validName name = true) :
    parseId name = none := by
  unfold validName at hv
  exact Option.isNone_iff_eq_none.mp (Bool.and_elim_right hv)

/-- After appending a workspace named `name` to a registry with no workspace
of that name, name lookup finds exactly the new workspace. -/
theorem findByName_append {st st' : State} {w : Workspace} {name : String}
    (hws : st'.workspaces = st.workspaces ++ [w])
    (hnone : Client.findByName st name = none) (hname : w.name = name) :
    Client.findByName st' name = some w := by
  unfold Client.findByName at *
  rw [hws, find?_append_of_none (List.find?_eq_none.mp hnone)]
  rw [List.find?_cons_of_pos _ (by simp [hname])]

/-- Characterisation of id lookup in a registry with unique ids. -/
theorem findById_eq_some_iff {st : State}
    (hid : ∀ a ∈ st.workspaces, ∀ b ∈ st.workspaces, a.id = b.id → a = b)
    (i : Nat) (w : Workspace) :
    Client.findById st i = some w ↔ w ∈ st.workspaces ∧ w.id = i := by
  constructor
  · intro h
    refine ⟨List.mem_of_find?_eq_some h, ?_⟩
    have := List.find?_some h
    simpa using this
  · intro hwi
    exact find?_eq_some_of_unique
      (fun a ha b hb hpa hpb => by
        simp only [beq_iff_eq] at hpa hpb
        exact hid a ha b hb (hpa.trans hpb.symm))
      hwi.1 (by simp [hwi.2])

/-- Id lookup fails exactly when no stored workspace bears the id. -/
theorem findById_eq_none_iff (st : State) (i : Nat) :
    Client.findById st i = none ↔ ∀ w ∈ st.workspaces, w.id ≠ i := by
  unfold Client.findById
  rw [List.find?_eq_none]
  simp

/-- Characterisation of name lookup in a registry with unique names. -/
theorem findByName_eq_some_iff {st : State}
    (hname : ∀ a ∈ st.workspaces, ∀ b ∈ st.workspaces, a.name = b.name → a = b)
    (n : String) (w : Workspace) :
    Client.findByName st n = some w ↔ w ∈ st.workspaces ∧ w.name = n := by
  constructor
  · intro h
    refine ⟨List.mem_of_find?_eq_some h, ?_⟩
    have := List.find?_some h
    simpa using this
  · intro hwn
    exact find?_eq_some_of_unique
      (fun a ha b hb hpa hpb => by
        simp only [beq_iff_eq] at hpa hpb
        exact hname a ha b hb (hpa.trans hpb.symm))
      hwn.1 (by simp [hwn.2])

/-- Name lookup fails exactly when no stored workspace bears the name. -/
theorem findByName_eq_none_iff (st : State) (n : String) :
    Client.findByName st n = none ↔ ∀ w ∈ st.workspaces, w.name ≠ n := by
  unfold Client.findByName
  rw [List.find?_eq_none]
  simp

/-- For an id-format literal, `get` succeeds exactly as id lookup does. -/
theorem get_workspace_ok_iff_id {st : State} {lit : String} {i : Nat}
    (hp : parseId lit = some i) (w : Workspace) :
    Client.get_workspace st lit = Except.ok w ↔
      Client.findById st i = some w := by
  unfold Client.get_workspace
  rw [hp]
  cases hf : Client.findById st i <;> simp [hf]

/-- For an id-format literal, `get` reports `NotFound` exactly when id
lookup fails. -/
theorem get_workspace_nf_iff_id {st : State} {lit : String} {i : Nat}
    (hp : parseId lit = some i) :
    Client.get_workspace st lit = Except.error Err.notFound ↔
      Client.findById st i = none := by
  unfold Client.get_workspace
  rw [hp]
  cases hf : Client.findById st i <;> simp [hf]

/-- For a non-id literal, `get` succeeds exactly as name lookup does. -/
theorem get_workspace_ok_iff_name {st : State} {lit : String}
    (hp : parseId lit = none) (w : Workspace) :
    Client.get_workspace st lit = Except.ok w ↔
      Client.findByName st lit = some w := by
  unfold Client.get_workspace
  rw [hp]
  cases hf : Client.findByName st lit <;> simp [hf]

/-- For a non-id literal, `get` reports `NotFound` exactly when name lookup
fails. -/
theorem get_workspace_nf_iff_name {st : State} {lit : String}
    (hp : parseId lit = none) :
    Client.get_workspace st lit = Except.error Err.notFound ↔
      Client.findByName st lit = none := by
  unfold Client.get_workspace
  rw [hp]
  cases hf : Client.findByName st lit <;> simp [hf]

/-- A successfully resolved workspace is a member of the registry. -/
theorem get_workspace_mem {st : State} {lit : String} {w : Workspace}
    (h : Client.get_workspace st lit = Except.ok w) : w ∈ st.workspaces := by
  cases hp : parseId lit with
  | some i =>
    rw [get_workspace_ok_iff_id hp w] at h
    exact List.mem_of_find?_eq_some h
  | none =>
    rw [get_workspace_ok_iff_name hp w] at h
    exact List.mem_of_find?_eq_some h

/-- Resolution only looks at the workspace registry. -/
theorem get_workspace_congr {st₁ st₂ : State}
    (h : st₁.workspaces = st₂.workspaces) (lit : String) :
    Client.get_workspace st₁ lit = Client.get_workspace st₂ lit := by
  unfold Client.get_workspace Client.findById Client.findByName
  rw [h]

/-! ### Claims -/

/-- Function `Nat.toDigitsCore` never shrinks a non-empty accumulator to nil. -/
theorem toDigitsCore_ne_nil {b : Nat} {fuel n : Nat} {ds : List Char}
    (h : ds ≠ []) : Nat.toDigitsCore b fuel n ds ≠ [] := by
  induction fuel generalizing n ds with
  | zero => exact h
  | succ fuel ih =>
    unfold Nat.toDigitsCore
    by_cases hz : n / b = 0
    · simp [hz]
    · simp only [hz, if_false]
      exact ih (by simp)

/-- The decimal digit list of a natural number is non-empty. -/
theorem toDigits_ne_nil (n : Nat) : Nat.toDigits 10 n ≠ [] := by
  unfold Nat.toDigits Nat.toDigitsCore
  by_cases hz : n / 10 = 0
  · simp [hz]
  · simp only [hz, if_false]
    exact toDigitsCore_ne_nil (by simp)

/-- Rendering a natural number yields a non-empty string. -/
theorem nat_toString_ne_empty (n : Nat) : toString n ≠ "" := by
  intro h
  have h2 := congrArg String.data h
  simp only [toString, Nat.repr, List.asString] at h2
  exact toDigits_ne_nil n h2

/-- C1: atomicity — every one of the embedded operations either fully
succeeds or fails leaving the registry and the active-workspace pointer
exactly as they were; in particular `register --set` either creates the
workspace and makes it active (the success equation gives the exact final
state), or returns an error with the state unchanged. -/
theorem c1_register_atomic (st : State) (name : String) (dn : Option String) :
    (∀ e st', Cli.register_workspace st name true dn = (Except.error e, st') →
        st' = st) ∧
    (validName name = true → Client.findByName st name = none →
      Cli.register_workspace st name true dn =
        (Except.ok (),
         { st with
             workspaces := st.workspaces ++ [Workspace.mk st.nextId name dn ""],
             nextId := st.nextId + 1, active := st.nextId })) ∧
    (∀ st', Cli.register_workspace st name true dn = (Except.ok (), st') →
        validName name = true ∧ Client.findByName st name = none) ∧
    (∀ e st' d, Client.create_workspace st name d dn = (Except.error e, st') →
        st' = st) ∧
    (∀ e st' l, Client.set_active_workspace st l = (Except.error e, st') →
        st' = st) ∧
    (∀ e st' l, Client.delete_workspace st l = (Except.error e, st') →
        st' = st) ∧
    (∀ e st' req wl, Endpoints.create_build st req wl = (Except.error e, st') →
        st' = st) ∧
    (∀ e st' bid, Endpoints.delete_build st bid = (Except.error e, st') →
        st' = st) := by
  have hsucc : ∀ dd : String, validName name = true →
      Client.findByName st name = none →
      Cli.register_workspace st name true dn =
        (Except.ok (),
         { st with
             workspaces := st.workspaces ++ [Workspace.mk st.nextId name dn ""],
             nextId := st.nextId + 1, active := st.nextId }) := by
    intro _ hv hn
    have hc : Client.create_workspace st name "" dn =
        (Except.ok (Workspace.mk st.nextId name dn ""),
         { st with
             workspaces := st.workspaces ++ [Workspace.mk st.nextId name dn ""],
             nextId := st.nextId + 1 }) := by
      rcases create_workspace_cases st name "" dn with
        ⟨hv2, _⟩ | ⟨_, hs, _⟩ | ⟨_, _, hc⟩
      · rw [hv] at hv2; cases hv2
      · rw [hn] at hs; simp at hs
      · exact hc
    have hfind : Client.findByName
        { st with
            workspaces := st.workspaces ++ [Workspace.mk st.nextId name dn ""],
            nextId := st.nextId + 1 } name =
        some (Workspace.mk st.nextId name dn "") :=
      findByName_append rfl hn rfl
    have hget : Client.get_workspace
        { st with
            workspaces := st.workspaces ++ [Workspace.mk st.nextId name dn ""],
            nextId := st.nextId + 1 } name =
        Except.ok (Workspace.mk st.nextId name dn "") := by
      unfold Client.get_workspace
      rw [validName_parseId hv, hfind]
    have hsa : Client.set_active_workspace
        { st with
            workspaces := st.workspaces ++ [Workspace.mk st.nextId name dn ""],
            nextId := st.nextId + 1 } name =
        (Except.ok (Workspace.mk st.nextId name dn ""),
         { st with
             workspaces := st.workspaces ++ [Workspace.mk st.nextId name dn ""],
             nextId := st.nextId + 1, active := st.nextId }) := by
      unfold Client.set_active_workspace
      rw [hget]
    simp [Cli.register_workspace, hc, hsa]
  refine ⟨?_, hsucc "", ?_, ?_, ?_, ?_, ?_, ?_⟩
  · intro e st' h
    rcases create_workspace_cases st name "" dn with
      ⟨hv, hc⟩ | ⟨hv, hs, hc⟩ | ⟨hv, hn, _⟩
    · simp [Cli.register_workspace, hc] at h
      exact h.2.symm
    · simp [Cli.register_workspace, hc] at h
      exact h.2.symm
    · rw [hsucc "" hv hn] at h
      simp at h
  · intro st' h
    rcases create_workspace_cases st name "" dn with
      ⟨hv, hc⟩ | ⟨hv, hs, hc⟩ | ⟨hv, hn, _⟩
    · simp [Cli.register_workspace, hc] at h
    · simp [Cli.register_workspace, hc] at h
    · exact ⟨hv, hn⟩
  · intro e st' d h
    rcases create_workspace_cases st name d dn with
      ⟨_, hc⟩ | ⟨_, _, hc⟩ | ⟨_, _, hc⟩ <;> rw [hc] at h <;> simp at h
    · exact h.2.symm
    · exact h.2.symm
  · intro e st' l h
    unfold Client.set_active_workspace at h
    cases hg : Client.get_workspace st l <;> rw [hg] at h <;> simp at h
    exact h.2.symm
  · intro e st' l h
    unfold Client.delete_workspace at h
    cases hg : Client.get_workspace st l <;> rw [hg] at h <;> simp at h
    exact h.2.symm
  · intro e st' req wl h
    unfold Endpoints.create_build at h
    by_cases hf : falsy wl = true
    · simp [hf, ZenStore.create_build] at h
    · simp only [hf, Bool.false_eq_true, if_false] at h
      cases hg : ZenStore.get_workspace st (wl.getD "") <;> rw [hg] at h <;>
        simp [ZenStore.create_build] at h
      exact h.2.symm
  · intro e st' bid h
    unfold Endpoints.delete_build at h
    cases hg : ZenStore.get_build st bid with
    | ok b =>
      rw [hg] at h
      unfold ZenStore.delete_build at h
      rw [hg] at h
      simp at h
    | error e2 =>
      rw [hg] at h
      simp at h
      exact h.2.symm

/-- Witness for C1: registering `teamB` with `--set` on the concrete state
`st0` creates the workspace with id 1 and makes it active. -/
theorem c1_register_atomic_witness :
    validName "teamB" = true ∧ Client.findByName st0 "teamB" = none ∧
    Cli.register_workspace st0 "teamB" true none =
      (Except.ok (),
       { st0 with
           workspaces := st0.workspaces ++ [Workspace.mk st0.nextId "teamB" none ""],
           nextId := st0.nextId + 1, active := st0.nextId }) :=
  ⟨by decide, by rfl,
    (c1_register_atomic st0 "teamB" none).2.1 (by decide) (by rfl)⟩

/-- C4: create/get round-trip — for a valid name that is free in the
registry, `create` succeeds and returns the workspace carrying the freshly
assigned (hence non-empty, rendered as a decimal string) id, the requested
name, display name (null when none was given) and description, and `get`
by that name on the resulting state returns the same workspace. -/
theorem c4_create_get_roundtrip (st : State) (name d : String)
    (dn : Option String) (hv : validName name = true)
    (hu : Client.findByName st name = none) :
    (Client.create_workspace st name d dn).1 =
        Except.ok (Workspace.mk st.nextId name dn d) ∧
    Client.get_workspace (Client.create_workspace st name d dn).2 name =
        Except.ok (Workspace.mk st.nextId name dn d) ∧
    (Workspace.mk st.nextId name dn d).name = name ∧
    (Workspace.mk st.nextId name dn d).display_name = dn ∧
    (Workspace.mk st.nextId name dn d).description = d ∧
    toString (Workspace.mk st.nextId name dn d).id ≠ "" := by
  have hc : Client.create_workspace st name d dn =
      (Except.ok (Workspace.mk st.nextId name dn d),
       { st with
           workspaces := st.workspaces ++ [Workspace.mk st.nextId name dn d],
           nextId := st.nextId + 1 }) := by
    rcases create_workspace_cases st name d dn with
      ⟨hv2, _⟩ | ⟨_, hs, _⟩ | ⟨_, _, hc⟩
    · rw [hv] at hv2; cases hv2
    · rw [hu] at hs; simp at hs
    · exact hc
  have hfind : Client.findByName
      { st with
          workspaces := st.workspaces ++ [Workspace.mk st.nextId name dn d],
          nextId := st.nextId + 1 } name =
      some (Workspace.mk st.nextId name dn d) :=
    findByName_append rfl hu rfl
  refine ⟨by rw [hc], ?_, rfl, rfl, rfl, nat_toString_ne_empty _⟩
  rw [hc]
  unfold Client.get_workspace
  rw [validName_parseId hv, hfind]

/-- Witness for C4: creating `teamA` with no display name on `st0` and
reading it back by name returns the new workspace with a null
display name. -/
theorem c4_create_get_roundtrip_witness :
    validName "teamA" = true ∧ Client.findByName st0 "teamA" = none ∧
    Client.get_workspace (Client.create_workspace st0 "teamA" "" none).2
        "teamA" = Except.ok (Workspace.mk 1 "teamA" none "") ∧
    (Workspace.mk 1 "teamA" none "").display_name = none :=
  ⟨by decide, by rfl,
    (c4_create_get_roundtrip st0 "teamA" "" none (by decide) (by rfl)).2.1,
    rfl⟩

/-- C5: duplicate-name rejection — whenever some workspace in a well-formed
registry already bears the requested name, `create` fails with `Conflict`,
whatever the other fields are, and the state is returned unchanged. -/
theorem c5_duplicate_name_conflict (st : State) (hWF : WF st)
    (name d : String) (dn : Option String) (w0 : Workspace)
    (hw0 : w0 ∈ st.workspaces) (hname : w0.name = name) :
    Client.create_workspace st name d dn = (Except.error Err.conflict, st) := by
  have hv : validName name = true := hname ▸ hWF.2.2.1 w0 hw0
  have hsome : (Client.findByName st name).isSome = true := by
    unfold Client.findByName
    cases hf : st.workspaces.find? (fun w => w.name == name) with
    | some w => rfl
    | none =>
      have := List.find?_eq_none.mp hf w0 hw0
      simp [hname] at this
  rcases create_workspace_cases st name d dn with
    ⟨hv2, _⟩ | ⟨_, _, hc⟩ | ⟨_, hn, _⟩
  · rw [hv] at hv2; cases hv2
  · exact hc
  · rw [hn] at hsome; simp at hsome

/-- Witness for C5: re-creating `default` on `st0` with different display
name and description fails with `Conflict` and leaves the state unchanged. -/
theorem c5_duplicate_name_conflict_witness :
    WF st0 ∧
    Client.create_workspace st0 "default" "other" (some "Other") =
      (Except.error Err.conflict, st0) :=
  ⟨by decide,
    c5_duplicate_name_conflict st0 (by decide) "default" "other"
      (some "Other") (Workspace.mk 0 "default" none "") (by decide) rfl⟩

/-- C3: name-or-id resolution — in a well-formed registry, a literal that
parses as an identifier is resolved as an id (success exactly on the member
with that id, `NotFound` exactly when no member has it), and any other
literal is resolved by unique name, with `NotFound` exactly when no member
bears the name. -/
theorem c3_get_resolution (st : State) (hWF : WF st) (lit : String) :
    (∀ i, parseId lit = some i →
       ((∀ w, Client.get_workspace st lit = Except.ok w ↔
           w ∈ st.workspaces ∧ w.id = i) ∧
        (Client.get_workspace st lit = Except.error Err.notFound ↔
           ∀ w ∈ st.workspaces, w.id ≠ i))) ∧
    (parseId lit = none →
       ((∀ w, Client.get_workspace st lit = Except.ok w ↔
           w ∈ st.workspaces ∧ w.name = lit) ∧
        (Client.get_workspace st lit = Except.error Err.notFound ↔
           ∀ w ∈ st.workspaces, w.name ≠ lit))) := by
  constructor
  · intro i hp
    constructor
    · intro w
      rw [get_workspace_ok_iff_id hp w, findById_eq_some_iff hWF.1 i w]
    · rw [get_workspace_nf_iff_id hp, findById_eq_none_iff st i]
  · intro hp
    constructor
    · intro w
      rw [get_workspace_ok_iff_name hp w, findByName_eq_some_iff hWF.2.1 lit w]
    · rw [get_workspace_nf_iff_name hp, findByName_eq_none_iff st lit]

/-- Witness for C3: on `st0`, the literal `default` is resolved by name to
the stored workspace, and the id-format literal `123` resolves as an id and
is not found. -/
theorem c3_get_resolution_witness :
    WF st0 ∧ parseId "default" = none ∧ parseId "123" = some 123 ∧
    Client.get_workspace st0 "default" =
      Except.ok (Workspace.mk 0 "default" none "") ∧
    Client.get_workspace st0 "123" = Except.error Err.notFound :=
  ⟨by decide, by rfl, by rfl,
    (((c3_get_resolution st0 (by decide) "default").2 (by rfl)).1
        (Workspace.mk 0 "default" none "")).mpr (by decide),
    (((c3_get_resolution st0 (by decide) "123").1 123 (by rfl)).2).mpr
      (by decide)⟩

/-- C6: delete removes observably — in a well-formed registry, a successful
`delete(x)` makes a subsequent `get(x)` fail with `NotFound`, and `delete(x)`
on an unresolvable `x` fails with `NotFound` leaving the state unchanged
rather than silently succeeding. -/
theorem c6_delete_removes (st : State) (hWF : WF st) (lit : String) :
    (∀ st', Client.delete_workspace st lit = (Except.ok (), st') →
       Client.get_workspace st' lit = Except.error Err.notFound) ∧
    (Client.get_workspace st lit = Except.error Err.notFound →
       Client.delete_workspace st lit = (Except.error Err.notFound, st)) := by
  constructor
  · intro st' h
    unfold Client.delete_workspace at h
    cases hg : Client.get_workspace st lit with
    | error e => rw [hg] at h; simp at h
    | ok w =>
      rw [hg] at h
      simp only [Prod.mk.injEq] at h
      have hst' : st' =
          { st with workspaces := st.workspaces.filter (fun x => x.id != w.id) } :=
        h.2.symm
      subst hst'
      cases hp : parseId lit with
      | some i =>
        have hid : w.id = i := by
          have := (get_workspace_ok_iff_id hp w).mp hg
          simpa using List.find?_some this
        rw [get_workspace_nf_iff_id hp]
        unfold Client.findById
        rw [List.find?_eq_none]
        intro x hx
        have := (List.mem_filter.mp hx).2
        simp only [bne_iff_ne, ne_eq] at this
        simp [hid ▸ this]
      | none =>
        have hnm : w.name = lit := by
          have := (get_workspace_ok_iff_name hp w).mp hg
          simpa using List.find?_some this
        have hmem : w ∈ st.workspaces := get_workspace_mem hg
        rw [get_workspace_nf_iff_name hp]
        unfold Client.findByName
        rw [List.find?_eq_none]
        intro x hx
        have hfil := List.mem_filter.mp hx
        simp only [bne_iff_ne, ne_eq] at hfil
        intro hxl
        simp only [beq_iff_eq] at hxl
        have hxw : x = w := hWF.2.1 x hfil.1 w hmem (hxl.trans hnm.symm)
        exact hfil.2 (congrArg Workspace.id hxw)
  · intro hg
    unfold Client.delete_workspace
    rw [hg]

/-- Witness for C6: deleting `default` from `st0` then resolving `default`
fails with `NotFound`; deleting the unresolvable `ghost` fails with
`NotFound` and leaves `st0` unchanged. -/
theorem c6_delete_removes_witness :
    WF st0 ∧
    Client.get_workspace (Client.delete_workspace st0 "default").2 "default" =
      Except.error Err.notFound ∧
    Client.delete_workspace st0 "ghost" = (Except.error Err.notFound, st0) :=
  ⟨by decide,
    (c6_delete_removes st0 (by decide) "default").1 _ (by rfl),
    (c6_delete_removes st0 (by decide) "ghost").2 (by rfl)⟩

/-- C9: the active-workspace pointer — a successful `set_active(x)` stores
exactly the id of the workspace `x` resolved to (and dereferencing the
pointer afterwards returns that workspace), while every other operation of
the excerpt leaves the pointer untouched, so the pointer keeps designating
that single workspace until another `set_active`. -/
theorem c9_active_pointer (st : State) (hWF : WF st) (lit : String) :
    (∀ w st', Client.set_active_workspace st lit = (Except.ok w, st') →
       st'.active = w.id ∧ st'.workspaces = st.workspaces ∧
       Client.active_workspace st' = some w) ∧
    (∀ name d dn, (Client.create_workspace st name d dn).2.active = st.active) ∧
    (∀ l, (Client.delete_workspace st l).2.active = st.active) ∧
    (∀ req wl, (Endpoints.create_build st req wl).2.active = st.active) ∧
    (∀ bid, (Endpoints.delete_build st bid).2.active = st.active) ∧
    (∀ f wl, (Endpoints.list_builds st f wl).2.active = st.active) ∧
    (∀ arg, (Cli.describe_workspace st arg).2.active = st.active) := by
  refine ⟨?_, ?_, ?_, ?_, ?_, ?_, ?_⟩
  · intro w st' h
    unfold Client.set_active_workspace at h
    cases hg : Client.get_workspace st lit with
    | error e => rw [hg] at h; simp at h
    | ok w0 =>
      rw [hg] at h
      simp only [Prod.mk.injEq, Except.ok.injEq] at h
      obtain ⟨hw0, hst'⟩ := h
      subst hw0
      subst hst'
      refine ⟨rfl, rfl, ?_⟩
      have hmem : w0 ∈ st.workspaces := get_workspace_mem hg
      exact (findById_eq_some_iff hWF.1 w0.id w0).mpr ⟨hmem, rfl⟩
  · intro name d dn
    unfold Client.create_workspace
    split
    · rfl
    · split <;> rfl
  · intro l
    unfold Client.delete_workspace
    split <;> rfl
  · intro req wl
    unfold Endpoints.create_build
    split
    · rfl
    · split <;> rfl
  · intro bid
    unfold Endpoints.delete_build ZenStore.delete_build
    split
    · split <;> rfl
    · rfl
  · intro f wl
    rw [list_builds_state]
  · intro arg
    rw [describe_workspace_state]

/-- Witness for C9: setting `default` active on `st0` stores id 0 in the
pointer, leaves the registry unchanged, and dereferencing the pointer
returns the workspace. -/
theorem c9_active_pointer_witness :
    WF st0 ∧
    ((Client.set_active_workspace st0 "default").2.active =
        (Workspace.mk 0 "default" none "").id ∧
     (Client.set_active_workspace st0 "default").2.workspaces =
        st0.workspaces ∧
     Client.active_workspace (Client.set_active_workspace st0 "default").2 =
        some (Workspace.mk 0 "default" none "")) :=
  ⟨by decide,
    (c9_active_pointer st0 (by decide) "default").1
      (Workspace.mk 0 "default" none "") _ (by rfl)⟩

/-- C8: reads are pure — for every filter and every name-or-id, the listing
and retrieval operations of both front ends return the registry and the
process-local active-workspace pointer exactly as they found them. -/
theorem c8_reads_pure (st : State) (f : PipelineBuildFilter)
    (wlit : Option String) (arg : Option String) (bid : Nat)
    (pred : Workspace → Bool) :
    (Endpoints.list_builds st f wlit).2 = st ∧
    (Endpoints.get_build st bid).2 = st ∧
    (Cli.list_workspaces st pred).2 = st ∧
    (Cli.describe_workspace st arg).2 = st :=
  ⟨list_builds_state st f wlit, rfl, rfl, describe_workspace_state st arg⟩

/-- C7: workspace scoping of builds — creating a build through the
workspace-scoped endpoint attaches the resolved workspace id to the build;
listing scoped to that workspace includes the build (and is exactly that
build when the store held no builds), while listing scoped to any other
workspace id excludes it. -/
theorem c7_build_scoping (st : State) (req : PipelineBuildRequest)
    (lit : String) (w : Workspace) (hlit : falsy (some lit) = false)
    (hw : ZenStore.get_workspace st lit = Except.ok w) :
    Endpoints.create_build st req (some lit) =
      (Except.ok (PipelineBuildResponse.mk st.nextBuildId (some w.id)
          req.checksum),
       { st with
           builds := st.builds ++
             [PipelineBuildResponse.mk st.nextBuildId (some w.id) req.checksum],
           nextBuildId := st.nextBuildId + 1 }) ∧
    (PipelineBuildResponse.mk st.nextBuildId (some w.id)
        req.checksum).workspace = some w.id ∧
    (∀ f : PipelineBuildFilter,
       PipelineBuildResponse.mk st.nextBuildId (some w.id) req.checksum ∈
         (ZenStore.list_builds
           { st with
               builds := st.builds ++
                 [PipelineBuildResponse.mk st.nextBuildId (some w.id)
                   req.checksum],
               nextBuildId := st.nextBuildId + 1 }
           (f.set_scope_workspace w.id)).items) ∧
    (∀ f : PipelineBuildFilter, ∀ i, i ≠ w.id →
       PipelineBuildResponse.mk st.nextBuildId (some w.id) req.checksum ∉
         (ZenStore.list_builds
           { st with
               builds := st.builds ++
                 [PipelineBuildResponse.mk st.nextBuildId (some w.id)
                   req.checksum],
               nextBuildId := st.nextBuildId + 1 }
           (f.set_scope_workspace i)).items) ∧
    (st.builds = [] →
       (∀ f : PipelineBuildFilter,
         (ZenStore.list_builds
           { st with
               builds := st.builds ++
                 [PipelineBuildResponse.mk st.nextBuildId (some w.id)
                   req.checksum],
               nextBuildId := st.nextBuildId + 1 }
           (f.set_scope_workspace w.id)).items =
         [PipelineBuildResponse.mk st.nextBuildId (some w.id) req.checksum]) ∧
       (∀ f : PipelineBuildFilter, ∀ i, i ≠ w.id →
         (ZenStore.list_builds
           { st with
               builds := st.builds ++
                 [PipelineBuildResponse.mk st.nextBuildId (some w.id)
                   req.checksum],
               nextBuildId := st.nextBuildId + 1 }
           (f.set_scope_workspace i)).items = [])) := by
  refine ⟨?_, rfl, ?_, ?_, ?_⟩
  · unfold Endpoints.create_build
    rw [hlit]
    simp only [Bool.false_eq_true, if_false, Option.getD_some]
    rw [hw]
    rfl
  · intro f
    simp [ZenStore.list_builds, PipelineBuildFilter.matches,
      PipelineBuildFilter.set_scope_workspace, List.mem_filter]
  · intro f i hne
    intro hmem
    have hmf : PipelineBuildResponse.mk st.nextBuildId (some w.id)
        req.checksum ∈
        (st.builds ++
          [PipelineBuildResponse.mk st.nextBuildId (some w.id) req.checksum]
          ).filter (f.set_scope_workspace i).matches := hmem
    have := (List.mem_filter.mp hmf).2
    simp [PipelineBuildFilter.matches,
      PipelineBuildFilter.set_scope_workspace] at this
    exact hne this.symm
  · intro hb
    constructor
    · intro f
      simp [ZenStore.list_builds, PipelineBuildFilter.matches,
        PipelineBuildFilter.set_scope_workspace, hb]
    · intro f i hne
      simp [ZenStore.list_builds, PipelineBuildFilter.matches,
        PipelineBuildFilter.set_scope_workspace, hb]
      exact fun h => absurd h.symm hne

/-- Witness for C7: creating a build through the endpoint scoped to
`default` on `st0` attaches workspace id 0, the page scoped to 0 is exactly
that build and the page scoped to 1 is empty. -/
theorem c7_build_scoping_witness :
    falsy (some "default") = false ∧
    ZenStore.get_workspace st0 "default" =
      Except.ok (Workspace.mk 0 "default" none "") ∧
    (Endpoints.create_build st0 (PipelineBuildRequest.mk none "img")
        (some "default")).1 =
      Except.ok (PipelineBuildResponse.mk 0 (some 0) "img") ∧
    (ZenStore.list_builds
        (Endpoints.create_build st0 (PipelineBuildRequest.mk none "img")
          (some "default")).2
        (PipelineBuildFilter.mk none |>.set_scope_workspace 0)).items =
      [PipelineBuildResponse.mk 0 (some 0) "img"] ∧
    (ZenStore.list_builds
        (Endpoints.create_build st0 (PipelineBuildRequest.mk none "img")
          (some "default")).2
        (PipelineBuildFilter.mk none |>.set_scope_workspace 1)).items = [] := by
  have h := c7_build_scoping st0 (PipelineBuildRequest.mk none "img")
    "default" (Workspace.mk 0 "default" none "") (by decide) (by rfl)
  refine ⟨by decide, by rfl, by rw [h.1]; rfl, ?_, ?_⟩
  · rw [h.1]
    exact (h.2.2.2.2 rfl).1 (PipelineBuildFilter.mk none)
  · rw [h.1]
    exact (h.2.2.2.2 rfl).2 (PipelineBuildFilter.mk none) 1 (by decide)

/-- Counterexample for C10: on `st0`, the explicit empty-string argument
resolves to no workspace, yet `describe` succeeds and prints the active
workspace instead of failing, because the command treats any falsy argument
(`None` or `""`) as absent. -/
theorem c10_describe_counterexample :
    Client.get_workspace st0 "" = Except.error Err.notFound ∧
    (Cli.describe_workspace st0 (some "")).1 =
      Except.ok (Workspace.mk 0 "default" none "") := by
  constructor <;> rfl

/-- C10 (amended): `describe` invoked with no argument — or with an
empty-string argument, which the command treats as absent — returns the
current active workspace rather than failing, while a non-empty explicit
argument that resolves to no workspace makes it fail with an error. -/
theorem c10_describe_active (st : State) (w : Workspace)
    (hA : Client.active_workspace st = some w) (lit : String)
    (hne : lit ≠ "")
    (hget : Client.get_workspace st lit = Except.error Err.notFound) :
    (Cli.describe_workspace st none).1 = Except.ok w ∧
    (Cli.describe_workspace st (some "")).1 = Except.ok w ∧
    (Cli.describe_workspace st (some lit)).1 =
      Except.error Err.notFound := by
  have hfal : falsy (some lit) = false := by
    unfold falsy
    exact beq_eq_false_iff_ne.mpr hne
  refine ⟨?_, ?_, ?_⟩
  · unfold Cli.describe_workspace
    rw [show falsy none = true from rfl]
    simp only [if_true]
    rw [hA]
  · unfold Cli.describe_workspace
    rw [show falsy (some "") = true from rfl]
    simp only [if_true]
    rw [hA]
  · unfold Cli.describe_workspace
    rw [hfal]
    simp only [Bool.false_eq_true, if_false, Option.getD_some]
    rw [hget]

/-- Witness for C10 (amended): on `st0`, `describe` with no argument and
with the empty-string argument returns the active workspace `default`,
while the unresolvable literal `ghost` makes it fail. -/
theorem c10_describe_active_witness :
    Client.active_workspace st0 = some (Workspace.mk 0 "default" none "") ∧
    Client.get_workspace st0 "ghost" = Except.error Err.notFound ∧
    ((Cli.describe_workspace st0 none).1 =
        Except.ok (Workspace.mk 0 "default" none "") ∧
     (Cli.describe_workspace st0 (some "")).1 =
        Except.ok (Workspace.mk 0 "default" none "") ∧
     (Cli.describe_workspace st0 (some "ghost")).1 =
        Except.error Err.notFound) :=
  ⟨by rfl, by rfl,
    c10_describe_active st0 (Workspace.mk 0 "default" none "") (by rfl)
      "ghost" (by decide) (by rfl)⟩

/-- C2: error-kind translation — the CLI exit codes of the delete and
register commands and the HTTP statuses of the delete and create endpoints
are determined by the typed error kind of the failed (or succeeded)
operation: success 0/200, not found 2/404, conflict 1/409, invalid 1/422. -/
theorem c2_error_codes (st : State) (lit name : String) (dn : Option String)
    (fl : Bool) (bid : Nat) (req : PipelineBuildRequest) (wl : Option String) :
    exitCodeOf (Cli.delete_workspace st lit).1 =
      (match (Cli.delete_workspace st lit).1 with
       | Except.ok _ => 0
       | Except.error Err.notFound => 2
       | Except.error Err.conflict => 1
       | Except.error Err.invalidArgument => 1) ∧
    exitCodeOf (Cli.register_workspace st name fl dn).1 =
      (match (Cli.register_workspace st name fl dn).1 with
       | Except.ok _ => 0
       | Except.error Err.notFound => 2
       | Except.error Err.conflict => 1
       | Except.error Err.invalidArgument => 1) ∧
    httpStatusOf (Endpoints.delete_build st bid).1 =
      (match (Endpoints.delete_build st bid).1 with
       | Except.ok _ => 200
       | Except.error Err.notFound => 404
       | Except.error Err.conflict => 409
       | Except.error Err.invalidArgument => 422) ∧
    httpStatusOf (Endpoints.create_build st req wl).1 =
      (match (Endpoints.create_build st req wl).1 with
       | Except.ok _ => 200
       | Except.error Err.notFound => 404
       | Except.error Err.conflict => 409
       | Except.error Err.invalidArgument => 422) := by
  refine ⟨?_, ?_, ?_, ?_⟩
  · cases hr : (Cli.delete_workspace st lit).1 with
    | ok a => rfl
    | error e => cases e <;> rfl
  · cases hr : (Cli.register_workspace st name fl dn).1 with
    | ok a => rfl
    | error e => cases e <;> rfl
  · cases hr : (Endpoints.delete_build st bid).1 with
    | ok a => rfl
    | error e => cases e <;> rfl
  · cases hr : (Endpoints.create_build st req wl).1 with
    | ok a => rfl
    | error e => cases e <;> rfl

end ZenML
